import Mathlib

/-!
Shallow embedding of the template registry & renderer of `templates.go`
(package `templates`, the whole library: `New`, `NewWithTemplateFuncs`,
`Add`, `AddWithLayout`, `AddWithLayoutAndIncludes`, `Render`,
`readFileNames`), together with theorems checking the specification's
claims about it.

Modelling conventions:
* The virtual filesystem (`io/fs.FS` together with `fs.Glob`) is an external
  collaborator; it is embedded as a structure holding the glob function.
  `fs.Glob` either fails (malformed pattern, `path.ErrBadPattern`) or
  returns the list of matching file names.
* The template engine (`html/template`) is an external collaborator; it is
  embedded as a structure holding `parseFS` (for
  `template.New(name).Funcs(funcs).ParseFS(fsys, files...)`) and
  `executeTemplate` (for `tmpl.ExecuteTemplate(w, name, data)`).  Execution
  either succeeds with the full output string or fails with an error
  message plus whatever prefix of the output was already written.
* The echo request context collaborator is embedded by its observable
  effect in `Render`: `c.NoContent(http.StatusInternalServerError)` records
  status 500 and returns a nil error.
* Go maps are embedded as association lists with overwrite-on-insert
  (`mapInsert`) and key lookup (`mapLookup`).
* `time.Now()` inside the default `getTime` template function is embedded
  by passing the wall-clock reading explicitly as a `ClockTime` value.
* Structured logging calls have no observable effect and are omitted.
* `errors.Wrap`/`errors.Wrapf` decorate an error with a message while
  keeping the cause; errors are embedded as the inductive `RegError`
  carrying exactly the data the Go error messages carry.
-/

namespace EchoTemplates

/-- Go `path.Base`: last element of the path after stripping trailing
slashes; `"."` for the empty path; `"/"` when the path is all slashes. -/
def pathBase (p : String) : String :=
  if p = "" then "."
  else
    let rev := p.data.reverse.dropWhile (fun c => c == '/')
    let base := (rev.takeWhile (fun c => c != '/')).reverse
    if base = [] then "/" else String.mk base

/-- A wall-clock reading (hour, minute, second), the explicit embedding of
the `time.Now()` call inside the default `getTime` template function. -/
structure ClockTime where
  hour : Nat
  minute : Nat
  second : Nat
deriving DecidableEq, Repr

/-- Two-digit zero padding, as produced by Go's reference layout fields
`15`, `04`, `05`. -/
def pad2 (n : Nat) : String :=
  if n < 10 then "0" ++ toString n else toString n

/-- The body of the default `getTime` template function:
`time.Now().Format("15:04:05")`, with the clock reading passed
explicitly. -/
def getTime (now : ClockTime) : String :=
  pad2 now.hour ++ ":" ++ pad2 now.minute ++ ":" ++ pad2 now.second

/-- `defaultTemplateFuncs`: the default function-extension table, a map
from function name to callable holding exactly the clock-formatting
function `getTime`. -/
def defaultTemplateFuncs : List (String × (ClockTime → String)) :=
  [("getTime", getTime)]

/-- The virtual-filesystem collaborator: `fs.Glob` either fails with a
bad-pattern error message or returns the list of matching file names. -/
structure FS where
  glob : String → Except String (List String)

/-- The errors a registration call can produce, carrying exactly the data
the Go error messages carry:
* `globFailed` — `fs.Glob` itself failed (wrapped
  "failed to list using file pattern");
* `noFiles` — "template: pattern matches no files: %#q" with the pattern;
* `parseFailed` — "failed to parse template %s" with the file name. -/
inductive RegError where
  | globFailed (msg : String)
  | noFiles (pattern : String)
  | parseFailed (filename : String) (msg : String)
deriving DecidableEq, Repr

/-- `readFileNames`: resolve every glob pattern, aborting on the first
pattern whose glob fails or that matches no files (`len(list) == 0`),
and concatenate the matches in pattern order. -/
def readFileNames (fsys : FS) : List String → Except RegError (List String)
  | [] => Except.ok []
  | pattern :: rest =>
    match fsys.glob pattern with
    | Except.error e => Except.error (RegError.globFailed e)
    | Except.ok list =>
      if list = [] then Except.error (RegError.noFiles pattern)
      else
        match readFileNames fsys rest with
        | Except.error e => Except.error e
        | Except.ok others => Except.ok (list ++ others)

/-- The `Template` struct: per-unit metadata — optional layout name
(`""` when the unit carries no layout, the Go zero value), the unit's own
name, and the opaque compiled template handle. -/
structure Template (Tmpl : Type) where
  layout : String
  name : String
  template : Tmpl
deriving DecidableEq

/-- The `TemplateRenderer` struct: the unit map plus the function-extension
table fixed at construction.  The Go map is embedded as an association
list with unique keys maintained by `mapInsert`. -/
structure TemplateRenderer (F Tmpl : Type) where
  templates : List (String × Template Tmpl)
  templateFuncs : F
deriving DecidableEq

/-- Go map lookup `m[k]` on the association-list embedding. -/
def mapLookup {α : Type} : List (String × α) → String → Option α
  | [], _ => none
  | p :: ps, k => if p.1 = k then some p.2 else mapLookup ps k

/-- Go map insert `m[k] = v` on the association-list embedding: any prior
binding of `k` is removed and the new binding appended. -/
def mapInsert {α : Type} : List (String × α) → String → α → List (String × α)
  | [], k, v => [(k, v)]
  | p :: ps, k, v =>
    if p.1 = k then mapInsert ps k v else p :: mapInsert ps k v

/-- `New`: a renderer with an empty unit map and the default function
table. -/
def New (Tmpl : Type) :
    TemplateRenderer (List (String × (ClockTime → String))) Tmpl :=
  { templates := [], templateFuncs := defaultTemplateFuncs }

/-- `NewWithTemplateFuncs`: a renderer with an empty unit map and the
supplied function table. -/
def NewWithTemplateFuncs {F : Type} (Tmpl : Type) (templateFuncs : F) :
    TemplateRenderer F Tmpl :=
  { templates := [], templateFuncs := templateFuncs }

/-- Outcome of `ExecuteTemplate`: full output on success, or an error
message together with the prefix of the output already written. -/
inductive ExecResult where
  | ok (output : String)
  | fail (msg : String) (writtenSoFar : String)
deriving DecidableEq, Repr

/-- The template-engine collaborator:
`parseFS name funcs fsys files` embeds
`template.New(name).Funcs(funcs).ParseFS(fsys, files...)` and
`executeTemplate tm name data` embeds
`tm.ExecuteTemplate(w, name, data)`. -/
structure Engine (F Tmpl Data : Type) where
  parseFS : String → F → FS → List String → Except String Tmpl
  executeTemplate : Tmpl → String → Data → ExecResult

/-- The observable outcome of one `Render` call: the error returned to the
caller, the bytes written to the output stream `w`, and the HTTP status
signalled through the echo context (`c.NoContent`), if any. -/
structure RenderResult where
  err : Option String
  written : String
  status : Option Nat
deriving DecidableEq, Repr

/-- Lines 154–162 of `Render`: fold the `ExecuteTemplate` outcome into the
returned error and the bytes on the output stream (no status is signalled
on this path). -/
def execToRenderResult : ExecResult → RenderResult
  | ExecResult.ok out => { err := none, written := out, status := none }
  | ExecResult.fail e w => { err := some e, written := w, status := none }

/-- The registration loop shared (verbatim, with different `ParseFS`
arguments and layout field) by the bodies of `Add`, `AddWithLayout` and
`AddWithLayoutAndIncludes`: for each resolved file name `f`, compile
`extra ++ [f]` under the renderer's function table and store the unit
under `path.Base(f)` with layout field `lname`.  A compile error aborts
the loop, keeping the units already stored (the Go map is mutated in
place). -/
def registerLoop {F Tmpl Data : Type} (eng : Engine F Tmpl Data) (fsys : FS)
    (extra : List String) (lname : String) :
    TemplateRenderer F Tmpl → List String →
      TemplateRenderer F Tmpl × Option RegError
  | t, [] => (t, none)
  | t, f :: fs =>
    match eng.parseFS (pathBase f) t.templateFuncs fsys (extra ++ [f]) with
    | Except.error e => (t, some (RegError.parseFailed f e))
    | Except.ok tmp =>
      registerLoop eng fsys extra lname
        { t with
          templates :=
            mapInsert t.templates (pathBase f)
              ⟨lname, pathBase f, tmp⟩ }
        fs

/-- `Add`: resolve the patterns (aborting the whole call on the first
failing pattern, before anything is compiled), then compile each file on
its own and store it under its base name with no layout. -/
def Add {F Tmpl Data : Type} (eng : Engine F Tmpl Data)
    (t : TemplateRenderer F Tmpl) (fsys : FS) (patterns : List String) :
    TemplateRenderer F Tmpl × Option RegError :=
  match readFileNames fsys patterns with
  | Except.error e => (t, some e)
  | Except.ok filenames => registerLoop eng fsys [] "" t filenames

/-- `AddWithLayout`: like `Add`, but each file is compiled together with
the layout file and the unit's layout field is `path.Base(layout)`. -/
def AddWithLayout {F Tmpl Data : Type} (eng : Engine F Tmpl Data)
    (t : TemplateRenderer F Tmpl) (fsys : FS) (layout : String)
    (patterns : List String) :
    TemplateRenderer F Tmpl × Option RegError :=
  match readFileNames fsys patterns with
  | Except.error e => (t, some e)
  | Except.ok filenames =>
    registerLoop eng fsys [layout] (pathBase layout) t filenames

/-- `AddWithLayoutAndIncludes`: like `AddWithLayout`, but the includes
pattern is passed to `ParseFS` as well. -/
def AddWithLayoutAndIncludes {F Tmpl Data : Type} (eng : Engine F Tmpl Data)
    (t : TemplateRenderer F Tmpl) (fsys : FS) (layout includes : String)
    (patterns : List String) :
    TemplateRenderer F Tmpl × Option RegError :=
  match readFileNames fsys patterns with
  | Except.error e => (t, some e)
  | Except.ok filenames =>
    registerLoop eng fsys [layout, includes] (pathBase layout) t filenames

/-- `Render`: look the name up in the unit map; on a miss, signal
`http.StatusInternalServerError` (500) through the context and return its
nil error; on a hit, execute the compiled template starting from the
layout name when the unit has one, else from the unit's own name. -/
def Render {F Tmpl Data : Type} (eng : Engine F Tmpl Data)
    (t : TemplateRenderer F Tmpl) (name : String) (data : Data) :
    RenderResult :=
  match mapLookup t.templates name with
  | none => { err := none, written := "", status := some 500 }
  | some tmpl =>
    let execName := if tmpl.layout = "" then tmpl.name else tmpl.layout
    execToRenderResult (eng.executeTemplate tmpl.template execName data)

/-! ### Helper lemmas about the association-list embedding of Go maps -/

theorem mapLookup_mapInsert {α : Type} (m : List (String × α)) (k : String)
    (v : α) (n : String) :
    mapLookup (mapInsert m k v) n = if n = k then some v else mapLookup m n := by
  induction m with
  | nil =>
    by_cases h : n = k
    · subst h
      simp [mapInsert, mapLookup]
    · have h' : ¬ k = n := fun hh => h hh.symm
      simp [mapInsert, mapLookup, h, h']
  | cons p ps ih =>
    by_cases hp : p.1 = k
    · rw [show mapInsert (p :: ps) k v = mapInsert ps k v from by
        simp [mapInsert, hp]]
      rw [ih]
      by_cases h : n = k
      · simp [h]
      · have hpn : ¬ p.1 = n := fun hh => h (hh.symm.trans hp)
        simp [mapLookup, h, hpn]
    · rw [show mapInsert (p :: ps) k v = p :: mapInsert ps k v from by
        simp [mapInsert, hp]]
      by_cases h : p.1 = n
      · have hnk : ¬ n = k := fun hh => hp (h.trans hh)
        simp [mapLookup, h, hnk]
      · simp [mapLookup, h, ih]

theorem mem_keys_mapInsert {α : Type} (m : List (String × α)) (k : String)
    (v : α) (n : String) :
    n ∈ (mapInsert m k v).map Prod.fst ↔
      n = k ∨ (n ∈ m.map Prod.fst ∧ n ≠ k) := by
  induction m with
  | nil => simp [mapInsert]
  | cons p ps ih =>
    by_cases hp : p.1 = k
    · rw [show mapInsert (p :: ps) k v = mapInsert ps k v from by
        simp [mapInsert, hp]]
      rw [ih]
      subst hp
      simp only [List.map_cons, List.mem_cons]
      constructor
      · rintro (h | ⟨h, hn⟩)
        · exact Or.inl h
        · exact Or.inr ⟨Or.inr h, hn⟩
      · rintro (h | ⟨h | h, hn⟩)
        · exact Or.inl h
        · exact absurd h hn
        · exact Or.inr ⟨h, hn⟩
    · rw [show mapInsert (p :: ps) k v = p :: mapInsert ps k v from by
        simp [mapInsert, hp]]
      have haux : n = p.1 → ¬ n = k := fun h1 h2 => hp (h1.symm.trans h2)
      simp only [List.map_cons, List.mem_cons]
      rw [ih]
      constructor
      · rintro (h | h | ⟨h, hn⟩)
        · exact Or.inr ⟨Or.inl h, haux h⟩
        · exact Or.inl h
        · exact Or.inr ⟨Or.inr h, hn⟩
      · rintro (h | ⟨h | h, hn⟩)
        · exact Or.inr (Or.inl h)
        · exact Or.inl h
        · exact Or.inr (Or.inr ⟨h, hn⟩)

theorem keys_nodup_mapInsert {α : Type} (m : List (String × α)) (k : String)
    (v : α) (h : (m.map Prod.fst).Nodup) :
    ((mapInsert m k v).map Prod.fst).Nodup := by
  induction m with
  | nil => simp [mapInsert]
  | cons p ps ih =>
    have htl : (ps.map Prod.fst).Nodup := (List.nodup_cons.mp (by simpa using h)).2
    have hhd : p.1 ∉ ps.map Prod.fst := (List.nodup_cons.mp (by simpa using h)).1
    by_cases hp : p.1 = k
    · rw [show mapInsert (p :: ps) k v = mapInsert ps k v from by
        simp [mapInsert, hp]]
      exact ih htl
    · rw [show mapInsert (p :: ps) k v = p :: mapInsert ps k v from by
        simp [mapInsert, hp]]
      rw [List.map_cons]
      refine List.nodup_cons.mpr ⟨?_, ih htl⟩
      intro hmem
      rcases (mem_keys_mapInsert ps k v p.1).mp hmem with h1 | ⟨h1, _⟩
      · exact hp h1
      · exact hhd h1

/-! ### Helper lemmas about `readFileNames` -/

theorem readFileNames_first_noFiles (fsys : FS) (ps₁ : List String) (p : String)
    (ps₂ : List String)
    (h₁ : ∀ q ∈ ps₁, ∃ l, fsys.glob q = Except.ok l ∧ l ≠ [])
    (h₂ : fsys.glob p = Except.ok []) :
    readFileNames fsys (ps₁ ++ p :: ps₂) = Except.error (RegError.noFiles p) := by
  induction ps₁ with
  | nil => simp [readFileNames, h₂]
  | cons q qs ih =>
    obtain ⟨l, hl, hne⟩ := h₁ q (List.mem_cons_self q qs)
    have ih' := ih (fun r hr => h₁ r (List.mem_cons_of_mem q hr))
    simp [readFileNames, hl, hne, ih']

theorem readFileNames_first_globFailed (fsys : FS) (ps₁ : List String)
    (p m : String) (ps₂ : List String)
    (h₁ : ∀ q ∈ ps₁, ∃ l, fsys.glob q = Except.ok l ∧ l ≠ [])
    (h₂ : fsys.glob p = Except.error m) :
    readFileNames fsys (ps₁ ++ p :: ps₂) =
      Except.error (RegError.globFailed m) := by
  induction ps₁ with
  | nil => simp [readFileNames, h₂]
  | cons q qs ih =>
    obtain ⟨l, hl, hne⟩ := h₁ q (List.mem_cons_self q qs)
    have ih' := ih (fun r hr => h₁ r (List.mem_cons_of_mem q hr))
    simp [readFileNames, hl, hne, ih']

theorem readFileNames_error_of_bad_mem (fsys : FS) (pats : List String)
    (p : String) (hmem : p ∈ pats)
    (hbad : fsys.glob p = Except.ok [] ∨ ∃ m, fsys.glob p = Except.error m) :
    ∃ e, readFileNames fsys pats = Except.error e := by
  induction pats with
  | nil => cases hmem
  | cons q qs ih =>
    rcases List.mem_cons.mp hmem with hq | hq
    · subst hq
      rcases hbad with hb | ⟨m, hb⟩
      · exact ⟨RegError.noFiles p, by simp [readFileNames, hb]⟩
      · exact ⟨RegError.globFailed m, by simp [readFileNames, hb]⟩
    · obtain ⟨e, he⟩ := ih hq
      cases hgq : fsys.glob q with
      | error m => exact ⟨RegError.globFailed m, by simp [readFileNames, hgq]⟩
      | ok l =>
        by_cases hl : l = []
        · exact ⟨RegError.noFiles q, by simp [readFileNames, hgq, hl]⟩
        · exact ⟨e, by simp [readFileNames, hgq, hl, he]⟩

/-! ### Helper lemmas about the registration loop -/

theorem registerLoop_funcs {F Tmpl Data : Type} (eng : Engine F Tmpl Data)
    (fsys : FS) (extra : List String) (lname : String) (files : List String) :
    ∀ t : TemplateRenderer F Tmpl,
      ((registerLoop eng fsys extra lname t files).1).templateFuncs =
        t.templateFuncs := by
  induction files with
  | nil =>
    intro t
    rfl
  | cons f fs ih =>
    intro t
    cases hparse : eng.parseFS (pathBase f) t.templateFuncs fsys (extra ++ [f]) with
    | error e => simp [registerLoop, hparse]
    | ok tmp =>
      simp only [registerLoop, hparse]
      exact ih _

theorem registerLoop_lookup {F Tmpl Data : Type} (eng : Engine F Tmpl Data)
    (fsys : FS) (extra : List String) (lname : String) (files : List String) :
    ∀ (t : TemplateRenderer F Tmpl) (n : String) (u : Template Tmpl),
      mapLookup ((registerLoop eng fsys extra lname t files).1).templates n =
          some u →
        mapLookup t.templates n = some u ∨ (u.layout = lname ∧ u.name = n) := by
  induction files with
  | nil =>
    intro t n u h
    exact Or.inl h
  | cons f fs ih =>
    intro t n u h
    cases hparse : eng.parseFS (pathBase f) t.templateFuncs fsys (extra ++ [f]) with
    | error e =>
      simp only [registerLoop, hparse] at h
      exact Or.inl h
    | ok tmp =>
      simp only [registerLoop, hparse] at h
      rcases ih _ n u h with h' | h'
      · rw [mapLookup_mapInsert] at h'
        by_cases hn : n = pathBase f
        · rw [if_pos hn] at h'
          obtain rfl := Option.some.inj h'
          exact Or.inr ⟨rfl, hn.symm⟩
        · rw [if_neg hn] at h'
          exact Or.inl h'
      · exact Or.inr h'

theorem registerLoop_parseFail {F Tmpl Data : Type} (eng : Engine F Tmpl Data)
    (fsys : FS) (extra : List String) (lname : String) (f e : String)
    (rest : List String) :
    ∀ (done : List String) (t : TemplateRenderer F Tmpl),
      (∀ g ∈ done, ∃ tm,
          eng.parseFS (pathBase g) t.templateFuncs fsys (extra ++ [g]) =
            Except.ok tm) →
        eng.parseFS (pathBase f) t.templateFuncs fsys (extra ++ [f]) =
            Except.error e →
          (registerLoop eng fsys extra lname t (done ++ f :: rest)).2 =
            some (RegError.parseFailed f e) := by
  intro done
  induction done with
  | nil =>
    intro t _ hf
    simp [registerLoop, hf]
  | cons g gs ih =>
    intro t hok hf
    obtain ⟨tm, htm⟩ := hok g (List.mem_cons_self g gs)
    simp only [List.cons_append, registerLoop, htm]
    exact ih _ (fun r hr => hok r (List.mem_cons_of_mem g hr)) hf

theorem registerLoop_keys_nodup {F Tmpl Data : Type} (eng : Engine F Tmpl Data)
    (fsys : FS) (extra : List String) (lname : String) (files : List String) :
    ∀ t : TemplateRenderer F Tmpl,
      (t.templates.map Prod.fst).Nodup →
        (((registerLoop eng fsys extra lname t files).1).templates.map
            Prod.fst).Nodup := by
  induction files with
  | nil =>
    intro t h
    exact h
  | cons f fs ih =>
    intro t h
    cases hparse : eng.parseFS (pathBase f) t.templateFuncs fsys (extra ++ [f]) with
    | error e => simpa [registerLoop, hparse] using h
    | ok tmp =>
      simp only [registerLoop, hparse]
      exact ih _ (keys_nodup_mapInsert _ _ _ h)

/-! ### Helper lemmas about `Render` -/

theorem Render_found {F Tmpl Data : Type} (eng : Engine F Tmpl Data)
    (t : TemplateRenderer F Tmpl) (nm : String) (data : Data)
    (u : Template Tmpl) (h : mapLookup t.templates nm = some u) :
    Render eng t nm data =
      execToRenderResult
        (eng.executeTemplate u.template
          (if u.layout = "" then u.name else u.layout) data) := by
  simp [Render, h]

/-! ### Concrete demonstration fixtures

A small filesystem and engine used to exercise the theorems on concrete
inputs: globbing knows a handful of patterns (`"["` is a malformed
pattern), parsing fails exactly on files whose base name is `bad.html`,
and execution fails exactly on the data value 13. -/

def demoFS : FS where
  glob := fun p =>
    if p = "pages/*.html" then
      Except.ok ["pages/about.html", "pages/index.html"]
    else if p = "one.html" then Except.ok ["one.html"]
    else if p = "two.html" then Except.ok ["two.html"]
    else if p = "bad.html" then Except.ok ["bad.html"]
    else if p = "[" then Except.error "syntax error in pattern"
    else Except.ok []

def demoEngine : Engine Unit String Nat where
  parseFS := fun tname _ _ files =>
    if files.any (fun f => pathBase f == "bad.html") then
      Except.error "unexpected EOF"
    else Except.ok (tname ++ "<" ++ String.intercalate "+" files ++ ">")
  executeTemplate := fun tm execName data =>
    if data = 13 then ExecResult.fail "boom" "<pa"
    else ExecResult.ok (execName ++ "[" ++ tm ++ "]" ++ toString data)

def emptyRenderer : TemplateRenderer Unit String :=
  NewWithTemplateFuncs String ()

def oneReg : TemplateRenderer Unit String :=
  (Add demoEngine emptyRenderer demoFS ["one.html"]).1

def twoReg : TemplateRenderer Unit String :=
  (Add demoEngine oneReg demoFS ["two.html"]).1

def layoutReg : TemplateRenderer Unit String :=
  (AddWithLayout demoEngine emptyRenderer demoFS "layout.html"
    ["pages/*.html"]).1

/-! ### The claims -/

/-- C1 counterexample.  The claim states that when a later pattern of the
same call matches zero files, units produced from earlier patterns of that
call remain registered.  On the concrete input below, the first pattern
`"one.html"` matches the file `one.html` (whose compilation would
succeed), the second pattern `"zero.html"` matches no files; the call
aborts with an error identifying `"zero.html"`, yet no unit named
`one.html` is registered — `readFileNames` resolves every pattern before
anything is compiled or inserted, so the registry is left empty. -/
theorem C1_counterexample :
    (Add demoEngine emptyRenderer demoFS ["one.html", "zero.html"]).2 =
        some (RegError.noFiles "zero.html") ∧
      mapLookup
        (Add demoEngine emptyRenderer demoFS
          ["one.html", "zero.html"]).1.templates "one.html" = none :=
  ⟨rfl, rfl⟩

/-- C1 (amended): for every registration call (`Add`, `AddWithLayout`,
`AddWithLayoutAndIncludes`), if a pattern matches zero files while every
earlier pattern matched at least one file, the call aborts at that first
such pattern and returns an error identifying it, and the registry is
exactly as before the call — no unit from any pattern of the failing call
is registered, because all patterns are resolved before any file is
compiled. -/
theorem C1_theorem {F Tmpl Data : Type} (eng : Engine F Tmpl Data)
    (t : TemplateRenderer F Tmpl) (fsys : FS) (ps₁ : List String)
    (p : String) (ps₂ : List String) (layout includes : String)
    (h₁ : ∀ q ∈ ps₁, ∃ l, fsys.glob q = Except.ok l ∧ l ≠ [])
    (h₂ : fsys.glob p = Except.ok []) :
    Add eng t fsys (ps₁ ++ p :: ps₂) = (t, some (RegError.noFiles p)) ∧
      AddWithLayout eng t fsys layout (ps₁ ++ p :: ps₂) =
        (t, some (RegError.noFiles p)) ∧
      AddWithLayoutAndIncludes eng t fsys layout includes (ps₁ ++ p :: ps₂) =
        (t, some (RegError.noFiles p)) := by
  have hr := readFileNames_first_noFiles fsys ps₁ p ps₂ h₁ h₂
  exact ⟨by simp [Add, hr], by simp [AddWithLayout, hr],
    by simp [AddWithLayoutAndIncludes, hr]⟩

/-- C1 witness: the amended claim evaluated on a concrete call whose
first pattern matches one file and whose second pattern matches none. -/
theorem C1_witness :
    Add demoEngine emptyRenderer demoFS ["one.html", "zero.html"] =
        (emptyRenderer, some (RegError.noFiles "zero.html")) ∧
      AddWithLayout demoEngine emptyRenderer demoFS "layout.html"
          ["one.html", "zero.html"] =
        (emptyRenderer, some (RegError.noFiles "zero.html")) ∧
      AddWithLayoutAndIncludes demoEngine emptyRenderer demoFS "layout.html"
          "includes/*.html" ["one.html", "zero.html"] =
        (emptyRenderer, some (RegError.noFiles "zero.html")) := by
  exact C1_theorem demoEngine emptyRenderer demoFS ["one.html"] "zero.html"
    [] "layout.html" "includes/*.html"
    (by
      intro q hq
      rw [List.mem_singleton] at hq
      subst hq
      exact ⟨["one.html"], rfl, by decide⟩)
    rfl

/-- C2: for every registry and every name not in the unit map, `Render`
returns a nil error to the caller, writes nothing to the output stream,
and signals status 500 (internal server error) through the echo
context. -/
theorem C2_theorem {F Tmpl Data : Type} (eng : Engine F Tmpl Data)
    (t : TemplateRenderer F Tmpl) (name : String) (data : Data)
    (h : mapLookup t.templates name = none) :
    Render eng t name data =
      { err := none, written := "", status := some 500 } := by
  simp [Render, h]

/-- C2 witness: rendering an unregistered name on a concrete registry. -/
theorem C2_witness :
    Render demoEngine oneReg "missing.html" 7 =
      { err := none, written := "", status := some 500 } :=
  C2_theorem demoEngine oneReg "missing.html" 7 rfl

/-- C3: for every registration call in which some supplied pattern matches
zero files or its globbing fails, the whole renderer — in particular the
unit map — is unchanged by the call and the call returns an error: all
patterns are resolved by `readFileNames` before any file is compiled or
any unit inserted, so a pattern failure registers nothing, not even units
for files matched by other patterns of the same call. -/
theorem C3_theorem {F Tmpl Data : Type} (eng : Engine F Tmpl Data)
    (t : TemplateRenderer F Tmpl) (fsys : FS) (pats : List String)
    (p layout includes : String) (hmem : p ∈ pats)
    (hbad : fsys.glob p = Except.ok [] ∨ ∃ m, fsys.glob p = Except.error m) :
    ∃ e, Add eng t fsys pats = (t, some e) ∧
      AddWithLayout eng t fsys layout pats = (t, some e) ∧
      AddWithLayoutAndIncludes eng t fsys layout includes pats =
        (t, some e) := by
  obtain ⟨e, he⟩ := readFileNames_error_of_bad_mem fsys pats p hmem hbad
  exact ⟨e, by simp [Add, he], by simp [AddWithLayout, he],
    by simp [AddWithLayoutAndIncludes, he]⟩

/-- C3 witness: a concrete call in which the second of two patterns
matches zero files leaves the registry untouched for all three
registration operations. -/
theorem C3_witness :
    ∃ e, Add demoEngine emptyRenderer demoFS ["one.html", "zero.html"] =
        (emptyRenderer, some e) ∧
      AddWithLayout demoEngine emptyRenderer demoFS "layout.html"
          ["one.html", "zero.html"] = (emptyRenderer, some e) ∧
      AddWithLayoutAndIncludes demoEngine emptyRenderer demoFS "layout.html"
          "includes/*.html" ["one.html", "zero.html"] =
        (emptyRenderer, some e) := by
  exact C3_theorem demoEngine emptyRenderer demoFS ["one.html", "zero.html"]
    "zero.html" "layout.html" "includes/*.html" (by decide) (Or.inl rfl)

/-- C4: every unit registered by `AddWithLayout` or
`AddWithLayoutAndIncludes` (i.e. present afterwards but not inherited
unchanged from before the call) has its layout field equal to the base
filename of the layout argument and is keyed by its own name; every unit
registered by `Add` carries no layout (`""`); and `Render` on a found
unit executes starting from the layout's name when the unit has one,
otherwise from the unit's own name.  (In the embedding the engine is
universally quantified, so the execution entry point is observable.) -/
theorem C4_theorem {F Tmpl Data : Type} (eng : Engine F Tmpl Data)
    (t : TemplateRenderer F Tmpl) (fsys : FS) (layout includes : String)
    (pats : List String) (nm : String) (data : Data) :
    (∀ n u,
      mapLookup (AddWithLayout eng t fsys layout pats).1.templates n =
          some u →
        mapLookup t.templates n = some u ∨
          (u.layout = pathBase layout ∧ u.name = n)) ∧
    (∀ n u,
      mapLookup
          (AddWithLayoutAndIncludes eng t fsys layout includes
            pats).1.templates n = some u →
        mapLookup t.templates n = some u ∨
          (u.layout = pathBase layout ∧ u.name = n)) ∧
    (∀ n u,
      mapLookup (Add eng t fsys pats).1.templates n = some u →
        mapLookup t.templates n = some u ∨ (u.layout = "" ∧ u.name = n)) ∧
    (∀ u, mapLookup t.templates nm = some u → u.layout ≠ "" →
      Render eng t nm data =
        execToRenderResult (eng.executeTemplate u.template u.layout data)) ∧
    (∀ u, mapLookup t.templates nm = some u → u.layout = "" →
      Render eng t nm data =
        execToRenderResult (eng.executeTemplate u.template u.name data)) := by
  refine ⟨?_, ?_, ?_, ?_, ?_⟩
  · intro n u h
    cases hr : readFileNames fsys pats with
    | error e =>
      simp only [AddWithLayout, hr] at h
      exact Or.inl h
    | ok files =>
      simp only [AddWithLayout, hr] at h
      exact registerLoop_lookup eng fsys [layout] (pathBase layout) files
        t n u h
  · intro n u h
    cases hr : readFileNames fsys pats with
    | error e =>
      simp only [AddWithLayoutAndIncludes, hr] at h
      exact Or.inl h
    | ok files =>
      simp only [AddWithLayoutAndIncludes, hr] at h
      exact registerLoop_lookup eng fsys [layout, includes]
        (pathBase layout) files t n u h
  · intro n u h
    cases hr : readFileNames fsys pats with
    | error e =>
      simp only [Add, hr] at h
      exact Or.inl h
    | ok files =>
      simp only [Add, hr] at h
      exact registerLoop_lookup eng fsys [] "" files t n u h
  · intro u hu hne
    rw [Render_found eng t nm data u hu, if_neg hne]
  · intro u hu heq
    rw [Render_found eng t nm data u hu, if_pos heq]

/-- C4 witness: on a concrete registry built by `AddWithLayout`, the unit
`index.html` carries layout `layout.html` and `Render` executes starting
from the layout's name. -/
theorem C4_witness :
    Render demoEngine layoutReg "index.html" 7 =
      execToRenderResult
        (demoEngine.executeTemplate "index.html<layout.html+pages/index.html>"
          "layout.html" 7) := by
  exact (C4_theorem demoEngine layoutReg demoFS "layout.html"
      "includes/*.html" [] "index.html" 7).2.2.2.1
    ⟨"layout.html", "index.html", "index.html<layout.html+pages/index.html>"⟩
    rfl (by decide)

/-- C5: registering a file whose base filename equals an
already-registered unit's name returns no error and overwrites the prior
unit (last-write-wins); a subsequent `Render` for that name uses the most
recently registered compilation; and every registration operation keeps
the unit map's keys unique. -/
theorem C5_theorem {F Tmpl Data : Type} (eng : Engine F Tmpl Data)
    (t : TemplateRenderer F Tmpl) (fsys : FS) (pat f : String) (tmp : Tmpl)
    (oldUnit : Template Tmpl) (data : Data)
    (hg : fsys.glob pat = Except.ok [f])
    (hp : eng.parseFS (pathBase f) t.templateFuncs fsys [f] = Except.ok tmp)
    (hold : mapLookup t.templates (pathBase f) = some oldUnit) :
    (Add eng t fsys [pat]).2 = none ∧
      mapLookup (Add eng t fsys [pat]).1.templates (pathBase f) =
        some ⟨"", pathBase f, tmp⟩ ∧
      Render eng (Add eng t fsys [pat]).1 (pathBase f) data =
        execToRenderResult (eng.executeTemplate tmp (pathBase f) data) ∧
      (∀ ps, (t.templates.map Prod.fst).Nodup →
        (((Add eng t fsys ps).1).templates.map Prod.fst).Nodup) ∧
      (∀ l ps, (t.templates.map Prod.fst).Nodup →
        (((AddWithLayout eng t fsys l ps).1).templates.map Prod.fst).Nodup) ∧
      (∀ l i ps, (t.templates.map Prod.fst).Nodup →
        (((AddWithLayoutAndIncludes eng t fsys l i ps).1).templates.map
            Prod.fst).Nodup) := by
  have hAdd : Add eng t fsys [pat] =
      ({ t with
          templates :=
            mapInsert t.templates (pathBase f) ⟨"", pathBase f, tmp⟩ },
        none) := by
    simp [Add, readFileNames, hg, registerLoop, hp]
  have hlook :
      mapLookup
          (mapInsert t.templates (pathBase f) ⟨"", pathBase f, tmp⟩)
          (pathBase f) =
        some (⟨"", pathBase f, tmp⟩ : Template Tmpl) := by
    simp [mapLookup_mapInsert]
  refine ⟨?_, ?_, ?_, ?_, ?_, ?_⟩
  · rw [hAdd]
  · rw [hAdd]
    exact hlook
  · rw [hAdd]
    rw [Render_found eng _ (pathBase f) data _ hlook]
    simp
  · intro ps hnodup
    cases hr : readFileNames fsys ps with
    | error e =>
      simp only [Add, hr]
      exact hnodup
    | ok files =>
      simp only [Add, hr]
      exact registerLoop_keys_nodup eng fsys [] "" files t hnodup
  · intro l ps hnodup
    cases hr : readFileNames fsys ps with
    | error e =>
      simp only [AddWithLayout, hr]
      exact hnodup
    | ok files =>
      simp only [AddWithLayout, hr]
      exact registerLoop_keys_nodup eng fsys [l] (pathBase l) files t hnodup
  · intro l i ps hnodup
    cases hr : readFileNames fsys ps with
    | error e =>
      simp only [AddWithLayoutAndIncludes, hr]
      exact hnodup
    | ok files =>
      simp only [AddWithLayoutAndIncludes, hr]
      exact registerLoop_keys_nodup eng fsys [l, i] (pathBase l) files t
        hnodup

/-- C5 witness: re-registering `one.html` on a registry that already holds
a unit of that name succeeds, overwrites it, and `Render` uses the new
compilation. -/
theorem C5_witness :
    (Add demoEngine oneReg demoFS ["one.html"]).2 = none ∧
      mapLookup (Add demoEngine oneReg demoFS ["one.html"]).1.templates
          "one.html" = some ⟨"", "one.html", "one.html<one.html>"⟩ ∧
      Render demoEngine (Add demoEngine oneReg demoFS ["one.html"]).1
          "one.html" 7 =
        execToRenderResult
          (demoEngine.executeTemplate "one.html<one.html>" "one.html" 7) := by
  obtain ⟨h1, h2, h3, _⟩ := C5_theorem demoEngine oneReg demoFS "one.html"
    "one.html" "one.html<one.html>" ⟨"", "one.html", "one.html<one.html>"⟩ 7
    rfl rfl rfl
  exact ⟨h1, h2, h3⟩

/-- C6: when every pattern of a registration call matched, a compile
failure on a file (the first failing file, all earlier matched files
compiling fine) aborts the call with an error that carries the offending
filename — for all three registration operations, each compiling the file
together with its layout/includes arguments. -/
theorem C6_theorem {F Tmpl Data : Type} (eng : Engine F Tmpl Data)
    (t : TemplateRenderer F Tmpl) (fsys : FS) (pats done : List String)
    (f e : String) (rest : List String) (layout includes : String)
    (hr : readFileNames fsys pats = Except.ok (done ++ f :: rest))
    (hd0 : ∀ g ∈ done, ∃ tm,
      eng.parseFS (pathBase g) t.templateFuncs fsys [g] = Except.ok tm)
    (hf0 : eng.parseFS (pathBase f) t.templateFuncs fsys [f] =
      Except.error e)
    (hdL : ∀ g ∈ done, ∃ tm,
      eng.parseFS (pathBase g) t.templateFuncs fsys [layout, g] =
        Except.ok tm)
    (hfL : eng.parseFS (pathBase f) t.templateFuncs fsys [layout, f] =
      Except.error e)
    (hdI : ∀ g ∈ done, ∃ tm,
      eng.parseFS (pathBase g) t.templateFuncs fsys
          [layout, includes, g] = Except.ok tm)
    (hfI : eng.parseFS (pathBase f) t.templateFuncs fsys
        [layout, includes, f] = Except.error e) :
    (Add eng t fsys pats).2 = some (RegError.parseFailed f e) ∧
      (AddWithLayout eng t fsys layout pats).2 =
        some (RegError.parseFailed f e) ∧
      (AddWithLayoutAndIncludes eng t fsys layout includes pats).2 =
        some (RegError.parseFailed f e) := by
  refine ⟨?_, ?_, ?_⟩
  · simp only [Add, hr]
    exact registerLoop_parseFail eng fsys [] "" f e rest done t hd0 hf0
  · simp only [AddWithLayout, hr]
    exact registerLoop_parseFail eng fsys [layout] (pathBase layout) f e
      rest done t hdL hfL
  · simp only [AddWithLayoutAndIncludes, hr]
    exact registerLoop_parseFail eng fsys [layout, includes]
      (pathBase layout) f e rest done t hdI hfI

/-- C6 witness: a concrete call whose first resolved file fails to parse
aborts all three registration operations with an error carrying the
filename. -/
theorem C6_witness :
    (Add demoEngine emptyRenderer demoFS ["bad.html", "pages/*.html"]).2 =
        some (RegError.parseFailed "bad.html" "unexpected EOF") ∧
      (AddWithLayout demoEngine emptyRenderer demoFS "layout.html"
          ["bad.html", "pages/*.html"]).2 =
        some (RegError.parseFailed "bad.html" "unexpected EOF") ∧
      (AddWithLayoutAndIncludes demoEngine emptyRenderer demoFS "layout.html"
          "includes/*.html" ["bad.html", "pages/*.html"]).2 =
        some (RegError.parseFailed "bad.html" "unexpected EOF") := by
  exact C6_theorem demoEngine emptyRenderer demoFS
    ["bad.html", "pages/*.html"] [] "bad.html" "unexpected EOF"
    ["pages/about.html", "pages/index.html"] "layout.html" "includes/*.html"
    rfl (fun g hg => nomatch hg) rfl (fun g hg => nomatch hg) rfl
    (fun g hg => nomatch hg) rfl

/-- C7: when executing the compiled template of a found unit fails at
render time, `Render` returns that execution error to the caller (with
whatever prefix of the output was already written on the stream, and no
status signalled through the context).  In the embedding `Render` takes
the registry as an immutable value and returns only a `RenderResult`,
which is the shallow form of the claim's "the unit map and the unit are
unchanged". -/
theorem C7_theorem {F Tmpl Data : Type} (eng : Engine F Tmpl Data)
    (t : TemplateRenderer F Tmpl) (nm : String) (data : Data)
    (u : Template Tmpl) (e w : String)
    (hl : mapLookup t.templates nm = some u)
    (he : eng.executeTemplate u.template
        (if u.layout = "" then u.name else u.layout) data =
      ExecResult.fail e w) :
    Render eng t nm data = { err := some e, written := w, status := none } := by
  rw [Render_found eng t nm data u hl, he]
  rfl

/-- C7 witness: on the demonstration engine, the data value 13 makes
execution fail; `Render` surfaces the error and the bytes written so
far. -/
theorem C7_witness :
    Render demoEngine oneReg "one.html" 13 =
      { err := some "boom", written := "<pa", status := none } :=
  C7_theorem demoEngine oneReg "one.html" 13
    ⟨"", "one.html", "one.html<one.html>"⟩ "boom" "<pa" rfl rfl

/-- C8: the outcome of `Render` depends only on the unit found under the
rendered name (and the data value): two registries whose unit maps agree
on that name render identically, and in particular the bytes written are
identical.  Together with `Render` being a pure function of the registry
value in the embedding (it never mutates the unit map or a unit), this is
the claim's determinism: repeated calls with the same name and data
produce identical bytes, aside from whatever time-dependence the engine
collaborator's own functions may have, which lives outside the registry. -/
theorem C8_theorem {F Tmpl Data : Type} (eng : Engine F Tmpl Data)
    (t₁ t₂ : TemplateRenderer F Tmpl) (nm : String) (data : Data)
    (h : mapLookup t₁.templates nm = mapLookup t₂.templates nm) :
    Render eng t₁ nm data = Render eng t₂ nm data ∧
      (Render eng t₁ nm data).written = (Render eng t₂ nm data).written := by
  have heq : Render eng t₁ nm data = Render eng t₂ nm data := by
    unfold Render
    rw [h]
  exact ⟨heq, by rw [heq]⟩

/-- C8 witness: registering a further, different name (`two.html`) leaves
the rendering of `one.html` byte-for-byte identical. -/
theorem C8_witness :
    Render demoEngine oneReg "one.html" 7 =
        Render demoEngine twoReg "one.html" 7 ∧
      (Render demoEngine oneReg "one.html" 7).written =
        (Render demoEngine twoReg "one.html" 7).written :=
  C8_theorem demoEngine oneReg twoReg "one.html" 7 rfl

/-- C9: `New` returns a registry with an empty unit map and the default
function table, whose `getTime` entry is a clock-formatting function
(producing zero-padded `HH:MM:SS` strings); `NewWithTemplateFuncs`
returns a registry with an empty unit map and exactly the supplied
function table; and every registration operation leaves the function
table fixed (it is applied to each compiled unit via `parseFS` inside
`registerLoop`). -/
theorem C9_theorem (Tmpl : Type) {F Tmpl' Data : Type} (fs : F)
    (eng : Engine F Tmpl' Data) (t : TemplateRenderer F Tmpl') (fsys : FS)
    (pats : List String) (layout includes : String) :
    (New Tmpl).templates = [] ∧
      (New Tmpl).templateFuncs = defaultTemplateFuncs ∧
      mapLookup defaultTemplateFuncs "getTime" = some getTime ∧
      getTime ⟨9, 5, 7⟩ = "09:05:07" ∧
      getTime ⟨23, 59, 58⟩ = "23:59:58" ∧
      (NewWithTemplateFuncs Tmpl' fs).templates = [] ∧
      (NewWithTemplateFuncs Tmpl' fs).templateFuncs = fs ∧
      ((Add eng t fsys pats).1).templateFuncs = t.templateFuncs ∧
      ((AddWithLayout eng t fsys layout pats).1).templateFuncs =
        t.templateFuncs ∧
      ((AddWithLayoutAndIncludes eng t fsys layout includes
          pats).1).templateFuncs = t.templateFuncs := by
  refine ⟨rfl, rfl, rfl, rfl, rfl, rfl, rfl, ?_, ?_, ?_⟩
  · cases hr : readFileNames fsys pats with
    | error e => simp [Add, hr]
    | ok files =>
      simp only [Add, hr]
      exact registerLoop_funcs eng fsys [] "" files t
  · cases hr : readFileNames fsys pats with
    | error e => simp [AddWithLayout, hr]
    | ok files =>
      simp only [AddWithLayout, hr]
      exact registerLoop_funcs eng fsys [layout] (pathBase layout) files t
  · cases hr : readFileNames fsys pats with
    | error e => simp [AddWithLayoutAndIncludes, hr]
    | ok files =>
      simp only [AddWithLayoutAndIncludes, hr]
      exact registerLoop_funcs eng fsys [layout, includes]
        (pathBase layout) files t

/-- C10: a pattern whose globbing itself fails (malformed pattern, as
distinct from matching zero files) also aborts the whole registration
call, leaves the registry exactly as before, and produces an error — a
failure mode distinct from the zero-match (`noFiles`) and compile
(`parseFailed`) errors. -/
theorem C10_theorem {F Tmpl Data : Type} (eng : Engine F Tmpl Data)
    (t : TemplateRenderer F Tmpl) (fsys : FS) (ps₁ : List String)
    (p m : String) (ps₂ : List String) (layout includes : String)
    (h₁ : ∀ q ∈ ps₁, ∃ l, fsys.glob q = Except.ok l ∧ l ≠ [])
    (h₂ : fsys.glob p = Except.error m) :
    Add eng t fsys (ps₁ ++ p :: ps₂) =
        (t, some (RegError.globFailed m)) ∧
      AddWithLayout eng t fsys layout (ps₁ ++ p :: ps₂) =
        (t, some (RegError.globFailed m)) ∧
      AddWithLayoutAndIncludes eng t fsys layout includes (ps₁ ++ p :: ps₂) =
        (t, some (RegError.globFailed m)) ∧
      (∀ q, RegError.globFailed m ≠ RegError.noFiles q) ∧
      (∀ g e, RegError.globFailed m ≠ RegError.parseFailed g e) := by
  have hr := readFileNames_first_globFailed fsys ps₁ p m ps₂ h₁ h₂
  exact ⟨by simp [Add, hr], by simp [AddWithLayout, hr],
    by simp [AddWithLayoutAndIncludes, hr],
    fun q h => RegError.noConfusion h,
    fun g e h => RegError.noConfusion h⟩

/-- C10 witness: the malformed pattern `"["` aborts a concrete call after
a first pattern that matched, leaving the registry untouched. -/
theorem C10_witness :
    Add demoEngine emptyRenderer demoFS ["one.html", "["] =
        (emptyRenderer, some (RegError.globFailed "syntax error in pattern")) ∧
      AddWithLayout demoEngine emptyRenderer demoFS "layout.html"
          ["one.html", "["] =
        (emptyRenderer,
          some (RegError.globFailed "syntax error in pattern")) ∧
      AddWithLayoutAndIncludes demoEngine emptyRenderer demoFS "layout.html"
          "includes/*.html" ["one.html", "["] =
        (emptyRenderer,
          some (RegError.globFailed "syntax error in pattern")) := by
  obtain ⟨h1, h2, h3, -, -⟩ := C10_theorem demoEngine emptyRenderer demoFS
    ["one.html"] "[" "syntax error in pattern" [] "layout.html"
    "includes/*.html"
    (by
      intro q hq
      rw [List.mem_singleton] at hq
      subst hq
      exact ⟨["one.html"], rfl, by decide⟩)
    rfl
  exact ⟨h1, h2, h3⟩

end EchoTemplates
